import Mathlib

/-!
Shallow embedding of the ESP32 WiFi-provisioning firmware
(`main/internet_verification.h` second, traced implementation of the
provisioning module, and `main/main.c` application state machine).

External capabilities (radio scan, NVS flash, FreeRTOS mutexes, HTTP
transport, connectivity probe, certificate and MQTT collaborators) are
modelled by an `Env` record of outcome flags/data; the module's own
global variables become the fields of `ProvState` / `MainState`.
-/

namespace StatsClient

/-- `esp_err_t` outcomes distinguished by the embedded code paths. -/
inductive EspErr
  | ok
  | fail
  | timeout
  | noMem
  deriving Repr, DecidableEq

/-- One cached scan record (the fields of `wifi_ap_record_t` that the
scan handler serializes: ssid, rssi, primary channel, authmode). -/
structure ScanEntry where
  ssid : String
  rssi : Int
  channel : Nat
  secure : Bool
  deriving Repr, DecidableEq

/-- The NVS namespace `device_config`: one optional value per key used by
the provisioning module (`wifi_ssid`, `wifi_pass`, `device_id`,
`prov_token`, `bearer_token`, `provisioned`). `none` means the key is
absent from the store. -/
structure NvsStore where
  wifi_ssid : Option String
  wifi_pass : Option String
  device_id : Option String
  prov_token : Option String
  bearer_token : Option String
  provisioned : Option Nat
  deriving Repr, DecidableEq

/-- A store with no provisioning key present (the state after
`wifi_provisioning_clear_and_restart` erases all six keys). -/
def NvsStore.empty : NvsStore :=
  { wifi_ssid := none, wifi_pass := none, device_id := none
    prov_token := none, bearer_token := none, provisioned := none }

/-- The provisioning module's static globals:
`s_httpd`, `s_provisioning_active`, `s_wifi_connected`, `s_sta_ip`,
`s_cached_networks`/`s_cached_network_count` (as the visible prefix list),
`s_cache_mutex` (whether it has been created), `s_initial_scan_done`,
plus the NVS namespace the module reads and writes. -/
structure ProvState where
  httpd : Bool
  provisioning_active : Bool
  wifi_connected : Bool
  sta_ip : String
  cached_networks : List ScanEntry
  cache_mutex : Bool
  initial_scan_done : Bool
  nvs : NvsStore
  deriving Repr, DecidableEq

/-- Boot values of the module globals (`NULL`/`false`/zeroed), over an
arbitrary pre-existing NVS content. -/
def ProvState.boot (nvs : NvsStore) : ProvState :=
  { httpd := false, provisioning_active := false, wifi_connected := false
    sta_ip := "", cached_networks := [], cache_mutex := false
    initial_scan_done := false, nvs := nvs }

/-- Outcomes of the external capabilities for one operation:
* `mutexCreateOk` — `xSemaphoreCreateMutex` returns non-NULL;
* `scanOk` / `scanAps` — `esp_wifi_scan_start` result and the records a
  successful scan reports;
* `cacheMutexOk` — the 5 s `xSemaphoreTake` in the refresh succeeds;
* `readMutexOk` — the 1 s `xSemaphoreTake` in the scan handler succeeds;
* `nvsOpenOk` — `nvs_open` on `device_config` succeeds;
* `nvsSetOk` — the `nvs_set_*`/`nvs_commit` calls of a save succeed;
* `netifOk`, `eventLoopOk` — `esp_netif_init` / default-event-loop
  creation succeed (or report `ESP_ERR_INVALID_STATE`);
* `httpStartOk` — `httpd_start` succeeds;
* `probeOk` — `internet_verification_test` returns `ESP_OK`;
* `credsReadOk` — reading device id / token from NVS succeeds;
* `hasCerts` — `certificate_manager_has_certificates`;
* `csrOk` — `certificate_manager_submit_csr` succeeds;
* `mqttStartOk`, `mqttConnectedAfterWait`, `mqttStillConnected` — MQTT
  handler start result, whether the 30 s wait observes a connection, and
  the liveness check while connected. -/
structure Env where
  mutexCreateOk : Bool
  scanOk : Bool
  scanAps : List ScanEntry
  cacheMutexOk : Bool
  readMutexOk : Bool
  nvsOpenOk : Bool
  nvsSetOk : Bool
  netifOk : Bool
  eventLoopOk : Bool
  httpStartOk : Bool
  probeOk : Bool
  credsReadOk : Bool
  hasCerts : Bool
  csrOk : Bool
  mqttStartOk : Bool
  mqttConnectedAfterWait : Bool
  mqttStillConnected : Bool
  deriving Repr, DecidableEq

/-- `WIFI_SCAN_MAX_APS`. -/
def WIFI_SCAN_MAX_APS : Nat := 20

/-- `perform_wifi_scan_and_cache`: create the cache mutex if absent,
run a blocking scan, clamp the reported AP count to `WIFI_SCAN_MAX_APS`,
and under the mutex replace the cached records and set
`s_initial_scan_done`. -/
def perform_wifi_scan_and_cache (env : Env) (s : ProvState) :
    EspErr × ProvState :=
  if !s.cache_mutex && !env.mutexCreateOk then
    (.noMem, s)
  else
    let s := { s with cache_mutex := true }
    if !env.scanOk then
      (.fail, s)
    else
      let apCount := min env.scanAps.length WIFI_SCAN_MAX_APS
      if env.cacheMutexOk then
        (.ok, { s with cached_networks := env.scanAps.take apCount
                       initial_scan_done := true })
      else
        (.timeout, s)

/-- `save_wifi_credentials`: write the four credential strings, the
bearer token when supplied and non-empty, and `provisioned = 1`, then
commit. The NVS capability's per-key writes either all succeed
(`nvsSetOk`) or the handler observes a failure; open failure leaves the
store untouched. -/
def save_wifi_credentials (env : Env) (nvs : NvsStore)
    (ssid password device_id prov_token : String)
    (bearer_token : Option String) : EspErr × NvsStore :=
  if !env.nvsOpenOk then
    (.fail, nvs)
  else if !env.nvsSetOk then
    (.fail, nvs)
  else
    let nvs := { nvs with wifi_ssid := some ssid, wifi_pass := some password
                          device_id := some device_id
                          prov_token := some prov_token }
    let nvs :=
      match bearer_token with
      | some b => if b.length > 0 then { nvs with bearer_token := some b } else nvs
      | none => nvs
    (.ok, { nvs with provisioned := some 1 })

/-- `wifi_provisioning_stop`: no-op returning `ESP_OK` when provisioning
is not active; otherwise stop the HTTP server, reset the scan-cache
state (`s_initial_scan_done`, `s_cached_network_count`) and clear
`s_provisioning_active`. -/
def wifi_provisioning_stop (s : ProvState) : EspErr × ProvState :=
  if !s.provisioning_active then
    (.ok, s)
  else
    (.ok, { s with httpd := false, initial_scan_done := false
                   cached_networks := [], provisioning_active := false })

/-- `wifi_provisioning_start`: immediate `ESP_OK` when already active;
otherwise initialize netif and the event loop, bring up the AP
(`wifi_init_ap` uses `ESP_ERROR_CHECK`, so it is modelled as
succeeding), run the initial scan (failure tolerated), and start the
HTTP server; on server-start failure stop WiFi and return `ESP_FAIL`. -/
def wifi_provisioning_start (env : Env) (s : ProvState) :
    EspErr × ProvState :=
  if s.provisioning_active then
    (.ok, s)
  else if !env.netifOk then
    (.fail, s)
  else if !env.eventLoopOk then
    (.fail, s)
  else
    let s := (perform_wifi_scan_and_cache env s).2
    if env.httpStartOk then
      (.ok, { s with httpd := true, provisioning_active := true })
    else
      (.fail, s)

/-- `wifi_provisioning_is_provisioned`: open the namespace read-only
(failure reads as not provisioned) and test `provisioned == 1`. -/
def wifi_provisioning_is_provisioned (env : Env) (s : ProvState) : Bool :=
  env.nvsOpenOk && s.nvs.provisioned == some 1

/-- `wifi_provisioning_clear_and_restart`: stop the HTTP server if
running, reset the scan cache and the provisioning-active flag, erase
all six NVS keys and commit (when the namespace opens), drop the
station connection state, and restart the provisioning AP via
`wifi_provisioning_start`. -/
def wifi_provisioning_clear_and_restart (env : Env) (s : ProvState) :
    EspErr × ProvState :=
  let s := { s with httpd := false, initial_scan_done := false
                    cached_networks := [], provisioning_active := false }
  let s := if env.nvsOpenOk then { s with nvs := NvsStore.empty } else s
  let s := { s with wifi_connected := false, sta_ip := "" }
  wifi_provisioning_start env s

/-- The JSON body of a `/provision` request as seen through
`cJSON_GetObjectItem` + `cJSON_IsString`: each required field is `some`
exactly when it is present as a JSON string. -/
structure ProvisionBody where
  ssid : Option String
  password : Option String
  device_id : Option String
  provisioning_token : Option String
  deriving Repr, DecidableEq

/-- A `/provision` request: the optional `Authorization` header value
and the body, where the outer `none` is a failed/empty `httpd_req_recv`
and the inner `none` a `cJSON_Parse` failure. -/
structure ProvisionRequest where
  authHeader : Option String
  body : Option (Option ProvisionBody)
  deriving Repr, DecidableEq

/-- Bearer-token extraction in `provision_handler`: strip a
case-insensitive `"Bearer "` prefix from the `Authorization` header if
present, else use the header value as-is; `none` when no header. -/
def extract_bearer (auth : Option String) : Option String :=
  match auth with
  | none => none
  | some a =>
      if (a.take 7).toLower = "bearer " then some (a.drop 7) else some a

/-- The missing-field list `provision_handler` accumulates: one check
per required field, in source order. -/
def provision_missing_fields (b : ProvisionBody) : List String :=
  (if b.ssid.isNone then ["ssid"] else [])
    ++ (if b.password.isNone then ["password"] else [])
    ++ (if b.device_id.isNone then ["device_id"] else [])
    ++ (if b.provisioning_token.isNone then ["provisioning_token"] else [])

/-- The JSON responses `provision_handler` can send, with their HTTP
status codes. -/
inductive ProvisionResponse
  | invalidRequest
  | invalidJson
  | missingFields (fields : List String)
  | saveFailed
  | okSaved
  deriving Repr, DecidableEq

/-- HTTP status code of a `provision_handler` response. -/
def ProvisionResponse.statusCode : ProvisionResponse → Nat
  | .invalidRequest => 400
  | .invalidJson => 400
  | .missingFields _ => 400
  | .saveFailed => 500
  | .okSaved => 200

/-- `provision_handler`: extract the bearer token, receive and parse the
body, validate the four required string fields (enumerating every
missing one), save the credentials, answer 200, then stop provisioning.
Only the success path mutates module state. -/
def provision_handler (env : Env) (req : ProvisionRequest)
    (s : ProvState) : ProvisionResponse × ProvState :=
  let bearer := extract_bearer req.authHeader
  match req.body with
  | none => (.invalidRequest, s)
  | some none => (.invalidJson, s)
  | some (some b) =>
      let missing := provision_missing_fields b
      if missing ≠ [] then
        (.missingFields missing, s)
      else
        let r := save_wifi_credentials env s.nvs (b.ssid.getD "")
          (b.password.getD "") (b.device_id.getD "")
          (b.provisioning_token.getD "") bearer
        if r.1 ≠ .ok then
          (.saveFailed, s)
        else
          (.okSaved, (wifi_provisioning_stop { s with nvs := r.2 }).2)

/-- A `/status` response: the `status` string and the optional `ip`
field. -/
structure StatusResponse where
  status : String
  ip : Option String
  deriving Repr, DecidableEq

/-- `status_handler`: report `connected` with `s_sta_ip` when
`s_wifi_connected`, else `provisioning` with the AP address
`192.168.4.1` when `s_provisioning_active`, else `disconnected` with no
`ip` field. Reads only. -/
def status_handler (s : ProvState) : StatusResponse :=
  if s.wifi_connected then
    { status := "connected", ip := some s.sta_ip }
  else if s.provisioning_active then
    { status := "provisioning", ip := some "192.168.4.1" }
  else
    { status := "disconnected", ip := none }

/-- The responses of `scan_handler`: a 500 JSON error, or a 200 payload
`{networks, count, cached}`. -/
inductive ScanResponse
  | scanFailed
  | cacheBusy
  | okNetworks (networks : List ScanEntry) (count : Nat) (cached : Bool)
  deriving Repr, DecidableEq

/-- The `cached` field of a 200 scan response, if any. -/
def ScanResponse.cachedField : ScanResponse → Option Bool
  | .okNetworks _ _ c => some c
  | _ => none

/-- The tail of `scan_handler` after the optional refresh: read the
cache under the 1 s mutex (500 `cache_busy` if it is missing or the
wait times out) and answer the cached networks with
`cached = !force_refresh`. -/
def scan_read (env : Env) (force_refresh : Bool) (s : ProvState) :
    ScanResponse × ProvState :=
  if !s.cache_mutex || !env.readMutexOk then
    (.cacheBusy, s)
  else
    (.okNetworks s.cached_networks s.cached_networks.length
      (!force_refresh), s)

/-- `scan_handler`: scan when the cache is unpopulated or a refresh is
forced (failing with 500 `scan_failed` only when no cached data exists
at all), then serve the cache via `scan_read`. -/
def scan_handler (env : Env) (force_refresh : Bool) (s : ProvState) :
    ScanResponse × ProvState :=
  if !s.initial_scan_done || force_refresh then
    let r := perform_wifi_scan_and_cache env s
    if r.1 ≠ .ok && !r.2.initial_scan_done then
      (.scanFailed, r.2)
    else
      scan_read env force_refresh r.2
  else
    scan_read env force_refresh s

/-- Reason-code classification in `wifi_event_handler`'s
`WIFI_EVENT_STA_DISCONNECTED` case: `15` or any code in `[201, 209]`
is an authentication failure. -/
def is_auth_fail_reason (reason : Nat) : Bool :=
  reason == 15 || (201 ≤ reason && reason ≤ 209)

/-- The WiFi / IP events the two registered handlers dispatch on. -/
inductive NetEvent
  | apStaConnected
  | apStaDisconnected
  | staStart
  | staConnected
  | staDisconnected (reason : Nat)
  | apStaIpAssigned
  | staGotIp (ip : String)
  | otherEvent
  deriving Repr, DecidableEq

/-- `wifi_event_handler`: only `WIFI_EVENT_STA_DISCONNECTED` mutates
state — it drops the connected flag and IP, then on an auth-failure
reason invokes `wifi_provisioning_clear_and_restart`. -/
def wifi_event_handler (env : Env) (e : NetEvent) (s : ProvState) :
    ProvState :=
  match e with
  | .staDisconnected reason =>
      let s := { s with wifi_connected := false, sta_ip := "" }
      if is_auth_fail_reason reason then
        (wifi_provisioning_clear_and_restart env s).2
      else
        s
  | _ => s

/-- `ip_event_handler`: `IP_EVENT_STA_GOT_IP` records the address and
sets `s_wifi_connected`; `IP_EVENT_AP_STAIPASSIGNED` only logs. -/
def ip_event_handler (e : NetEvent) (s : ProvState) : ProvState :=
  match e with
  | .staGotIp ip => { s with sta_ip := ip, wifi_connected := true }
  | _ => s

/-- One delivered event, dispatched to both registered handlers (each
handler ignores the other's event base/ids). -/
def net_event_step (env : Env) (e : NetEvent) (s : ProvState) :
    ProvState :=
  ip_event_handler e (wifi_event_handler env e s)

/-- `app_state_t` of `main.c`. -/
inductive AppState
  | initApp
  | checkProvisioning
  | apMode
  | wifiConnecting
  | wifiConnected
  | checkCertificates
  | submitCsr
  | mqttConnecting
  | mqttConnected
  | errorApp
  deriving Repr, DecidableEq

/-- `main.c`'s task-level state: `s_app_state`, the `static` locals of the
state-machine cases (`connection_attempted`, `verification_done`,
`verification_retries`, `mqtt_connect_retries`, `connected_msg_shown`,
`heartbeat_counter`), and the provisioning-module state it drives. -/
structure MainState where
  app_state : AppState
  connection_attempted : Bool
  verification_done : Bool
  verification_retries : Nat
  mqtt_connect_retries : Nat
  connected_msg_shown : Bool
  heartbeat_counter : Nat
  prov : ProvState
  deriving Repr, DecidableEq

/-- `MAX_VERIFICATION_RETRIES` in the `WIFI_CONNECTED` case. -/
def MAX_VERIFICATION_RETRIES : Nat := 2

/-- `MAX_MQTT_RETRIES` in the `MQTT_CONNECTING` case. -/
def MAX_MQTT_RETRIES : Nat := 3

/-- One iteration of `app_state_machine_task`'s `while (1)` switch. -/
def app_step (env : Env) (m : MainState) : MainState :=
  match m.app_state with
  | .initApp => { m with app_state := .checkProvisioning }
  | .checkProvisioning =>
      if wifi_provisioning_is_provisioned env m.prov then
        { m with app_state := .wifiConnecting }
      else
        { m with app_state := .apMode }
  | .apMode =>
      if !wifi_provisioning_is_provisioned env m.prov then
        { m with prov := (wifi_provisioning_start env m.prov).2 }
      else
        { m with app_state := .wifiConnecting }
  | .wifiConnecting =>
      if !m.connection_attempted then
        if env.nvsOpenOk && m.prov.nvs.wifi_ssid.isSome then
          { m with connection_attempted := true }
        else
          m
      else
        m
  | .wifiConnected =>
      if !wifi_provisioning_is_provisioned env m.prov then
        { m with verification_done := false, verification_retries := 0
                 app_state := .apMode }
      else if !m.verification_done then
        if env.probeOk then
          { m with verification_done := true, verification_retries := 0
                   app_state := .checkCertificates }
        else
          let retries := m.verification_retries + 1
          if MAX_VERIFICATION_RETRIES ≤ retries then
            { m with prov := (wifi_provisioning_clear_and_restart env m.prov).2
                     verification_done := false, verification_retries := 0
                     app_state := .apMode }
          else
            { m with verification_retries := retries }
      else
        { m with app_state := .checkCertificates }
  | .checkCertificates =>
      if env.hasCerts then
        { m with app_state := .mqttConnecting }
      else
        { m with app_state := .submitCsr }
  | .submitCsr =>
      if !env.credsReadOk then
        { m with app_state := .errorApp }
      else if env.csrOk then
        { m with app_state := .mqttConnecting }
      else
        m
  | .mqttConnecting =>
      if env.mqttStartOk && env.mqttConnectedAfterWait then
        { m with mqtt_connect_retries := 0, app_state := .mqttConnected }
      else
        let retries := m.mqtt_connect_retries + 1
        if MAX_MQTT_RETRIES ≤ retries then
          { m with mqtt_connect_retries := retries, app_state := .errorApp }
        else
          { m with mqtt_connect_retries := retries }
  | .mqttConnected =>
      let m := { m with connected_msg_shown := true }
      if !env.mqttStillConnected then
        { m with connected_msg_shown := false, app_state := .mqttConnecting }
      else
        { m with heartbeat_counter :=
            if 30 ≤ m.heartbeat_counter + 1 then 0 else m.heartbeat_counter + 1 }
  | .errorApp => m

/-- `wifi_sta_event_handler` in `main.c`: a station link-established or
got-IP event advances `s_app_state` to `WIFI_CONNECTED`. -/
def wifi_sta_event_handler (e : NetEvent) (m : MainState) : MainState :=
  match e with
  | .staConnected => { m with app_state := .wifiConnected }
  | .staGotIp _ => { m with app_state := .wifiConnected }
  | _ => m

/-! Concrete fixtures used by witnesses and counterexamples. -/

/-- An environment in which every external capability succeeds and the
radio reports no access points. -/
def envAllOk : Env :=
  { mutexCreateOk := true, scanOk := true, scanAps := [], cacheMutexOk := true
    readMutexOk := true, nvsOpenOk := true, nvsSetOk := true, netifOk := true
    eventLoopOk := true, httpStartOk := true, probeOk := true
    credsReadOk := true, hasCerts := true, csrOk := true, mqttStartOk := true
    mqttConnectedAfterWait := true, mqttStillConnected := true }

/-- One concrete scan record. -/
def scanEntryNet : ScanEntry :=
  { ssid := "Net", rssi := -40, channel := 6, secure := true }

/-- A provisioning-active state whose cache holds one entry from a prior
successful scan. -/
def provStateActive : ProvState :=
  { httpd := true, provisioning_active := true, wifi_connected := false
    sta_ip := "", cached_networks := [scanEntryNet], cache_mutex := true
    initial_scan_done := true, nvs := NvsStore.empty }

/-! Helper lemmas about fields the provisioning operations leave
untouched. -/

theorem perform_scan_wifi_connected (env : Env) (s : ProvState) :
    ((perform_wifi_scan_and_cache env s).2).wifi_connected
      = s.wifi_connected := by
  unfold perform_wifi_scan_and_cache
  split
  · rfl
  · split
    · rfl
    · split <;> rfl

theorem perform_scan_nvs (env : Env) (s : ProvState) :
    ((perform_wifi_scan_and_cache env s).2).nvs = s.nvs := by
  unfold perform_wifi_scan_and_cache
  split
  · rfl
  · split
    · rfl
    · split <;> rfl

theorem start_wifi_connected (env : Env) (s : ProvState) :
    ((wifi_provisioning_start env s).2).wifi_connected
      = s.wifi_connected := by
  unfold wifi_provisioning_start
  split
  · rfl
  · split
    · rfl
    · split
      · rfl
      · split <;> simp [perform_scan_wifi_connected]

theorem start_nvs (env : Env) (s : ProvState) :
    ((wifi_provisioning_start env s).2).nvs = s.nvs := by
  unfold wifi_provisioning_start
  split
  · rfl
  · split
    · rfl
    · split
      · rfl
      · split <;> simp [perform_scan_nvs]

theorem clear_and_restart_wifi_connected (env : Env) (s : ProvState) :
    ((wifi_provisioning_clear_and_restart env s).2).wifi_connected
      = false := by
  unfold wifi_provisioning_clear_and_restart
  split <;> simp [start_wifi_connected]

/-! ### Claim theorems -/

/-- C5: the connectivity flag `s_wifi_connected` backing the status
endpoint becomes true only through the got-IP (`IP_EVENT_STA_GOT_IP`)
event; a station link-established (`WIFI_EVENT_STA_CONNECTED`) event
alone changes nothing. -/
theorem wifi_connected_only_via_got_ip (env : Env) (e : NetEvent)
    (s : ProvState) :
    net_event_step env .staConnected s = s
    ∧ ((net_event_step env e s).wifi_connected = true →
        s.wifi_connected = true ∨ ∃ ip, e = .staGotIp ip) := by
  constructor
  · rfl
  · intro h
    cases e with
    | staGotIp ip => exact Or.inr ⟨ip, rfl⟩
    | staDisconnected reason =>
        exfalso
        simp only [net_event_step, wifi_event_handler, ip_event_handler] at h
        split at h
        · rw [clear_and_restart_wifi_connected] at h
          exact Bool.false_ne_true h
        · exact Bool.false_ne_true h
    | apStaConnected => exact Or.inl h
    | apStaDisconnected => exact Or.inl h
    | staStart => exact Or.inl h
    | staConnected => exact Or.inl h
    | apStaIpAssigned => exact Or.inl h
    | otherEvent => exact Or.inl h

/-- C5 witness: from a disconnected boot state, a link-established event
leaves the state (hence the flag) unchanged, and a got-IP event is a
valid source of the flag. -/
theorem wifi_connected_only_via_got_ip_witness :
    net_event_step envAllOk .staConnected (ProvState.boot NvsStore.empty)
      = ProvState.boot NvsStore.empty
    ∧ ((net_event_step envAllOk (.staGotIp "10.0.0.7")
          (ProvState.boot NvsStore.empty)).wifi_connected = true →
        (ProvState.boot NvsStore.empty).wifi_connected = true
        ∨ ∃ ip, NetEvent.staGotIp "10.0.0.7" = NetEvent.staGotIp ip) :=
  ⟨(wifi_connected_only_via_got_ip envAllOk .otherEvent
      (ProvState.boot NvsStore.empty)).1,
   (wifi_connected_only_via_got_ip envAllOk (.staGotIp "10.0.0.7")
      (ProvState.boot NvsStore.empty)).2⟩

/-- C7: `wifi_provisioning_start` while provisioning is already active
returns `ESP_OK` immediately and changes nothing. -/
theorem start_idempotent_when_active (env : Env) (s : ProvState)
    (h : s.provisioning_active = true) :
    wifi_provisioning_start env s = (.ok, s) := by
  unfold wifi_provisioning_start
  simp [h]

/-- C7 witness: starting on the concrete active state is a successful
no-op. -/
theorem start_idempotent_when_active_witness :
    provStateActive.provisioning_active = true
    ∧ wifi_provisioning_start envAllOk provStateActive
        = (.ok, provStateActive) :=
  ⟨rfl, start_idempotent_when_active envAllOk provStateActive rfl⟩

/-- C9: while not connected but provisioning-active, `/status` reports
`provisioning` with ip `192.168.4.1`; the `ip` field is omitted exactly
in the `disconnected` case. -/
theorem status_provisioning_ap_ip (s : ProvState) :
    (s.wifi_connected = false → s.provisioning_active = true →
      status_handler s
        = { status := "provisioning", ip := some "192.168.4.1" })
    ∧ ((status_handler s).ip = none ↔
        (status_handler s).status = "disconnected") := by
  constructor
  · intro hwc hact
    simp [status_handler, hwc, hact]
  · unfold status_handler
    split
    · simp
    · split <;> simp

/-- C9 witness: the concrete provisioning-active state reports
`provisioning` at the AP address, and its `ip` field is present exactly
as the biconditional predicts. -/
theorem status_provisioning_ap_ip_witness :
    provStateActive.wifi_connected = false
    ∧ provStateActive.provisioning_active = true
    ∧ status_handler provStateActive
        = { status := "provisioning", ip := some "192.168.4.1" }
    ∧ ((status_handler provStateActive).ip = none ↔
        (status_handler provStateActive).status = "disconnected") :=
  ⟨rfl, rfl, (status_provisioning_ap_ip provStateActive).1 rfl rfl,
   (status_provisioning_ap_ip provStateActive).2⟩

/-- C10: `wifi_provisioning_stop` while inactive returns `ESP_OK` with
all module state unchanged, and a second consecutive stop is always a
no-op returning `ESP_OK`. -/
theorem stop_inactive_noop_idempotent (s : ProvState) :
    (s.provisioning_active = false → wifi_provisioning_stop s = (.ok, s))
    ∧ wifi_provisioning_stop (wifi_provisioning_stop s).2
        = (.ok, (wifi_provisioning_stop s).2) := by
  constructor
  · intro h
    unfold wifi_provisioning_stop
    simp [h]
  · unfold wifi_provisioning_stop
    split
    · rfl
    · simp

/-- C10 witness: stopping the inactive boot state is a no-op, and a
second stop after stopping the active fixture is also a no-op. -/
theorem stop_inactive_noop_idempotent_witness :
    (ProvState.boot NvsStore.empty).provisioning_active = false
    ∧ wifi_provisioning_stop (ProvState.boot NvsStore.empty)
        = (.ok, ProvState.boot NvsStore.empty)
    ∧ wifi_provisioning_stop (wifi_provisioning_stop provStateActive).2
        = (.ok, (wifi_provisioning_stop provStateActive).2) :=
  ⟨rfl, (stop_inactive_noop_idempotent (ProvState.boot NvsStore.empty)).1 rfl,
   (stop_inactive_noop_idempotent provStateActive).2⟩

/-- Whether a required `/provision` field name is absent from (or a
non-string in) the parsed body. -/
def provisionFieldMissingIn (b : ProvisionBody) : String → Bool
  | "ssid" => b.ssid.isNone
  | "password" => b.password.isNone
  | "device_id" => b.device_id.isNone
  | "provisioning_token" => b.provisioning_token.isNone
  | _ => false

theorem start_active_of_caps (env : Env) (s : ProvState)
    (hnetif : env.netifOk = true) (hloop : env.eventLoopOk = true)
    (hhttp : env.httpStartOk = true) :
    ((wifi_provisioning_start env s).2).provisioning_active = true := by
  unfold wifi_provisioning_start
  split
  · assumption
  · simp [hnetif, hloop, hhttp]

theorem clear_and_restart_nvs (env : Env) (s : ProvState)
    (hnvs : env.nvsOpenOk = true) :
    ((wifi_provisioning_clear_and_restart env s).2).nvs
      = NvsStore.empty := by
  unfold wifi_provisioning_clear_and_restart
  rw [start_nvs]
  simp [hnvs]

theorem clear_and_restart_active (env : Env) (s : ProvState)
    (hnetif : env.netifOk = true) (hloop : env.eventLoopOk = true)
    (hhttp : env.httpStartOk = true) :
    ((wifi_provisioning_clear_and_restart env s).2).provisioning_active
      = true := by
  unfold wifi_provisioning_clear_and_restart
  exact start_active_of_caps env _ hnetif hloop hhttp

/-- C1: a `/provision` body lacking any non-empty subset of the four
required string fields gets a 400 `missing_fields` response whose list
is exactly the missing subset (every missing field enumerated, in
source order), with no credential key written. -/
theorem provision_missing_fields_exact (env : Env) (req : ProvisionRequest)
    (s : ProvState) (b : ProvisionBody)
    (hbody : req.body = some (some b))
    (hne : provision_missing_fields b ≠ []) :
    provision_handler env req s
      = (.missingFields (provision_missing_fields b), s)
    ∧ (ProvisionResponse.missingFields
        (provision_missing_fields b)).statusCode = 400
    ∧ provision_missing_fields b
        = ["ssid", "password", "device_id", "provisioning_token"].filter
            (provisionFieldMissingIn b) := by
  refine ⟨?_, rfl, ?_⟩
  · unfold provision_handler
    rw [hbody]
    simp [hne]
  · rcases b with ⟨os, op, od, ot⟩
    cases os <;> cases op <;> cases od <;> cases ot <;> rfl

/-- A `/provision` request whose body lacks `ssid` and `device_id`. -/
def reqMissingTwo : ProvisionRequest :=
  { authHeader := none
    body := some (some { ssid := none, password := some "pw123456"
                         device_id := none
                         provisioning_token := some "tok1" }) }

/-- C1 witness: the request missing `ssid` and `device_id` yields a 400
whose list is exactly `["ssid", "device_id"]` and leaves the state
unchanged. -/
theorem provision_missing_fields_exact_witness :
    reqMissingTwo.body
      = some (some ⟨none, some "pw123456", none, some "tok1"⟩)
    ∧ provision_missing_fields ⟨none, some "pw123456", none, some "tok1"⟩ ≠ []
    ∧ (provision_handler envAllOk reqMissingTwo provStateActive
        = (.missingFields
            (provision_missing_fields
              ⟨none, some "pw123456", none, some "tok1"⟩), provStateActive)
      ∧ (ProvisionResponse.missingFields
          (provision_missing_fields
            ⟨none, some "pw123456", none, some "tok1"⟩)).statusCode = 400
      ∧ provision_missing_fields ⟨none, some "pw123456", none, some "tok1"⟩
          = ["ssid", "password", "device_id", "provisioning_token"].filter
              (provisionFieldMissingIn
                ⟨none, some "pw123456", none, some "tok1"⟩)) :=
  ⟨rfl, by decide,
   provision_missing_fields_exact envAllOk reqMissingTwo provStateActive
     ⟨none, some "pw123456", none, some "tok1"⟩ rfl (by decide)⟩

/-- C2: a station disconnect erases the whole credential record plus the
provisioned flag and restarts the AP listener exactly when the reason
code is 15 or lies in [201, 209]; any other reason leaves every
CredentialStore key untouched. -/
theorem disconnect_reason_credential_erase (env : Env) (s : ProvState)
    (reason : Nat) (hnvs : env.nvsOpenOk = true)
    (hnetif : env.netifOk = true) (hloop : env.eventLoopOk = true)
    (hhttp : env.httpStartOk = true) :
    (is_auth_fail_reason reason = true →
      (wifi_event_handler env (.staDisconnected reason) s).nvs
          = NvsStore.empty
      ∧ (wifi_event_handler env
          (.staDisconnected reason) s).provisioning_active = true)
    ∧ (is_auth_fail_reason reason = false →
      wifi_event_handler env (.staDisconnected reason) s
        = { s with wifi_connected := false, sta_ip := "" })
    ∧ is_auth_fail_reason reason
        = (reason == 15 || (201 ≤ reason && reason ≤ 209)) := by
  refine ⟨?_, ?_, rfl⟩
  · intro hauth
    simp only [wifi_event_handler, hauth, if_true]
    exact ⟨clear_and_restart_nvs env _ hnvs,
           clear_and_restart_active env _ hnetif hloop hhttp⟩
  · intro hother
    simp [wifi_event_handler, hother]

/-- A fully provisioned credential record. -/
def nvsProvisioned : NvsStore :=
  { wifi_ssid := some "Net", wifi_pass := some "pw123456"
    device_id := some "dev1", prov_token := some "tok1"
    bearer_token := none, provisioned := some 1 }

/-- A station-connected state holding the provisioned record. -/
def provStateConnected : ProvState :=
  { httpd := false, provisioning_active := false, wifi_connected := true
    sta_ip := "10.0.0.7", cached_networks := [], cache_mutex := true
    initial_scan_done := false, nvs := nvsProvisioned }

/-- C2 witness: with all capabilities available, a reason-15 disconnect
on the provisioned connected state erases the record and re-activates
the listener (and the classification is as stated). -/
theorem disconnect_reason_credential_erase_witness :
    envAllOk.nvsOpenOk = true
    ∧ envAllOk.netifOk = true
    ∧ envAllOk.eventLoopOk = true
    ∧ envAllOk.httpStartOk = true
    ∧ ((is_auth_fail_reason 15 = true →
        (wifi_event_handler envAllOk
            (.staDisconnected 15) provStateConnected).nvs = NvsStore.empty
        ∧ (wifi_event_handler envAllOk
            (.staDisconnected 15) provStateConnected).provisioning_active
              = true)
      ∧ (is_auth_fail_reason 15 = false →
        wifi_event_handler envAllOk (.staDisconnected 15) provStateConnected
          = { provStateConnected with
                wifi_connected := false, sta_ip := "" })
      ∧ is_auth_fail_reason 15 = (15 == 15 || (201 ≤ 15 && 15 ≤ 209))) :=
  ⟨rfl, rfl, rfl, rfl,
   disconnect_reason_credential_erase envAllOk provStateConnected 15
     rfl rfl rfl rfl⟩

/-- An environment in which the radio scan fails but every other
capability succeeds. -/
def envScanFails : Env := { envAllOk with scanOk := false }

/-- C3 counterexample: on `GET /local-wifi?refresh=true` with a
populated cache and a failing refresh scan, the handler serves the
previous (stale) entries but answers `cached = false`, not
`cached = true` as claimed. -/
theorem refresh_fail_stale_cached_counterexample :
    (scan_handler envScanFails true provStateActive).1
      = .okNetworks [scanEntryNet] 1 false
    ∧ ((scan_handler envScanFails true provStateActive).1).cachedField
        ≠ some true := by
  refine ⟨rfl, ?_⟩
  decide

/-- C3 amended: on a forced refresh whose scan fails after at least one
successful scan populated the cache, the handler answers 200 with the
previous (stale) cached entries — with the `cached` field set to
`false` (the handler computes `cached = !force_refresh` regardless of
whether the refresh succeeded). -/
theorem refresh_fail_serves_stale (env : Env) (s : ProvState)
    (hscan : env.scanOk = false) (hdone : s.initial_scan_done = true)
    (hmutex : s.cache_mutex = true) (hread : env.readMutexOk = true) :
    scan_handler env true s
      = (.okNetworks s.cached_networks s.cached_networks.length false,
         s) := by
  obtain ⟨httpd, active, wc, ip, nets, mtx, done, nvs⟩ := s
  simp only [ProvState.initial_scan_done] at hdone
  simp only [ProvState.cache_mutex] at hmutex
  subst hdone
  subst hmutex
  unfold scan_handler perform_wifi_scan_and_cache
  simp [scan_read, hscan, hread]

/-- C3 amended witness: the concrete populated state under the failing
refresh serves its single stale entry with 200 and `cached = false`. -/
theorem refresh_fail_serves_stale_witness :
    envScanFails.scanOk = false
    ∧ provStateActive.initial_scan_done = true
    ∧ provStateActive.cache_mutex = true
    ∧ envScanFails.readMutexOk = true
    ∧ scan_handler envScanFails true provStateActive
        = (.okNetworks provStateActive.cached_networks
            provStateActive.cached_networks.length false, provStateActive) :=
  ⟨rfl, rfl, rfl, rfl,
   refresh_fail_serves_stale envScanFails provStateActive rfl rfl rfl rfl⟩

/-- C4: from `WIFI_CONNECTED` with the verification counters at their
entry values and the device still provisioned, two consecutive
connectivity-probe failures (the probe result is opaque, so the cause
of failure is irrelevant) make the orchestrator invoke
clear-and-restart — erasing the credentials and re-activating the AP
listener — and transition to `AP_MODE`. -/
theorem two_probe_failures_clear_and_ap (env : Env) (m : MainState)
    (hstate : m.app_state = .wifiConnected)
    (hdone : m.verification_done = false)
    (hret : m.verification_retries = 0)
    (hprov : m.prov.nvs.provisioned = some 1)
    (hprobe : env.probeOk = false) (hnvs : env.nvsOpenOk = true)
    (hnetif : env.netifOk = true) (hloop : env.eventLoopOk = true)
    (hhttp : env.httpStartOk = true) :
    (app_step env (app_step env m)).app_state = .apMode
    ∧ (app_step env (app_step env m)).prov.nvs = NvsStore.empty
    ∧ (app_step env (app_step env m)).prov.provisioning_active = true := by
  have h1 : app_step env m = { m with verification_retries := 1 } := by
    unfold app_step
    rw [hstate]
    simp [wifi_provisioning_is_provisioned, hprov, hnvs, hdone, hprobe,
      hret, MAX_VERIFICATION_RETRIES]
  rw [h1]
  unfold app_step
  simp only [hstate, wifi_provisioning_is_provisioned, hprov, hnvs,
    hdone, hprobe, MAX_VERIFICATION_RETRIES]
  simp only [beq_self_eq_true, Bool.and_true, Bool.not_true,
    Bool.false_eq_true, if_false, Bool.not_false, if_true]
  refine ⟨?_, ?_, ?_⟩
  · simp
  · simpa using clear_and_restart_nvs env m.prov hnvs
  · simpa using clear_and_restart_active env m.prov hnetif hloop hhttp

/-- An environment whose connectivity probe fails but whose other
capabilities succeed. -/
def envProbeFails : Env := { envAllOk with probeOk := false }

/-- The orchestrator sitting in `WIFI_CONNECTED` on the provisioned
connected state, before any verification attempt. -/
def mainWifiConnected : MainState :=
  { app_state := .wifiConnected, connection_attempted := true
    verification_done := false, verification_retries := 0
    mqtt_connect_retries := 0, connected_msg_shown := false
    heartbeat_counter := 0, prov := provStateConnected }

/-- C4 witness: two failing-probe iterations from the concrete
`WIFI_CONNECTED` state land in `AP_MODE` with the credentials erased
and the listener active. -/
theorem two_probe_failures_clear_and_ap_witness :
    mainWifiConnected.app_state = .wifiConnected
    ∧ mainWifiConnected.verification_done = false
    ∧ mainWifiConnected.verification_retries = 0
    ∧ mainWifiConnected.prov.nvs.provisioned = some 1
    ∧ envProbeFails.probeOk = false
    ∧ ((app_step envProbeFails
          (app_step envProbeFails mainWifiConnected)).app_state = .apMode
      ∧ (app_step envProbeFails
          (app_step envProbeFails mainWifiConnected)).prov.nvs
            = NvsStore.empty
      ∧ (app_step envProbeFails
          (app_step envProbeFails mainWifiConnected)).prov.provisioning_active
            = true) :=
  ⟨rfl, rfl, rfl, rfl, rfl,
   two_probe_failures_clear_and_ap envProbeFails mainWifiConnected
     rfl rfl rfl rfl rfl rfl rfl rfl rfl⟩

/-- The scenario `/provision` request: the four fields of §8's scenario
body, no Authorization header. -/
def reqFullNoAuth : ProvisionRequest :=
  { authHeader := none
    body := some (some { ssid := some "Net", password := some "pw123456"
                         device_id := some "dev1"
                         provisioning_token := some "tok1" }) }

/-- C8 counterexample: right after the claim's successful submit (all
four fields, no Authorization header) the provisioning-active flag has
been dropped by `wifi_provisioning_stop`, so `status_handler` reports
`disconnected`, not the claimed `provisioning`. -/
theorem provision_then_status_counterexample :
    (provision_handler envAllOk reqFullNoAuth provStateActive).1
      = .okSaved
    ∧ (status_handler
        (provision_handler envAllOk reqFullNoAuth provStateActive).2).status
        = "disconnected"
    ∧ (status_handler
        (provision_handler envAllOk reqFullNoAuth provStateActive).2).status
        ≠ "provisioning" := by
  refine ⟨rfl, rfl, ?_⟩
  decide

/-- C8 amended: a `/provision` with all four fields and no
Authorization header answers 200 `ok`, stores the four credential
fields and the provisioned flag while the bearer-token key stays
absent; the handler then stops provisioning, so an immediate `/status`
reads `disconnected` (not `provisioning`) until the station connection
completes with a got-IP event, after which it reads `connected` with
the assigned IP. -/
theorem provision_success_no_auth (env : Env) (s : ProvState)
    (ssid password device_id prov_token ip : String)
    (hactive : s.provisioning_active = true)
    (hwc : s.wifi_connected = false)
    (hbearer : s.nvs.bearer_token = none)
    (hnvso : env.nvsOpenOk = true) (hnvss : env.nvsSetOk = true) :
    (provision_handler env
        ⟨none, some (some ⟨some ssid, some password, some device_id,
          some prov_token⟩)⟩ s).1 = .okSaved
    ∧ ProvisionResponse.okSaved.statusCode = 200
    ∧ ((provision_handler env
        ⟨none, some (some ⟨some ssid, some password, some device_id,
          some prov_token⟩)⟩ s).2).nvs
        = { wifi_ssid := some ssid, wifi_pass := some password
            device_id := some device_id, prov_token := some prov_token
            bearer_token := none, provisioned := some 1 }
    ∧ status_handler ((provision_handler env
        ⟨none, some (some ⟨some ssid, some password, some device_id,
          some prov_token⟩)⟩ s).2)
        = { status := "disconnected", ip := none }
    ∧ status_handler (ip_event_handler (.staGotIp ip)
        ((provision_handler env
          ⟨none, some (some ⟨some ssid, some password, some device_id,
            some prov_token⟩)⟩ s).2))
        = { status := "connected", ip := some ip } := by
  have hsave :
      save_wifi_credentials env s.nvs ssid password device_id prov_token
          (extract_bearer none)
        = (.ok, { wifi_ssid := some ssid, wifi_pass := some password
                  device_id := some device_id, prov_token := some prov_token
                  bearer_token := none, provisioned := some 1 }) := by
    unfold save_wifi_credentials extract_bearer
    simp [hnvso, hnvss, hbearer]
  have hmain :
      provision_handler env
          ⟨none, some (some ⟨some ssid, some password, some device_id,
            some prov_token⟩)⟩ s
        = (.okSaved,
           { s with nvs := { wifi_ssid := some ssid
                             wifi_pass := some password
                             device_id := some device_id
                             prov_token := some prov_token
                             bearer_token := none, provisioned := some 1 }
                    httpd := false, initial_scan_done := false
                    cached_networks := [], provisioning_active := false }) := by
    unfold provision_handler
    simp only [provision_missing_fields, Option.isNone_some,
      Bool.false_eq_true, if_false, List.append_nil, ne_eq,
      not_true_eq_false, not_false_eq_true, Option.getD_some]
    rw [hsave]
    simp [wifi_provisioning_stop, hactive]
  rw [hmain]
  refine ⟨rfl, rfl, rfl, ?_, ?_⟩
  · simp [status_handler, hwc]
  · simp [status_handler, ip_event_handler]

/-- C8 amended witness: the §8 scenario body on the concrete active
state: 200 `ok`, bearer key absent, record and flag stored, `/status`
reads `disconnected` then — after got-IP — `connected` with the
address. -/
theorem provision_success_no_auth_witness :
    provStateActive.provisioning_active = true
    ∧ provStateActive.wifi_connected = false
    ∧ provStateActive.nvs.bearer_token = none
    ∧ ((provision_handler envAllOk reqFullNoAuth provStateActive).1
          = .okSaved
      ∧ ProvisionResponse.okSaved.statusCode = 200
      ∧ ((provision_handler envAllOk reqFullNoAuth provStateActive).2).nvs
          = { wifi_ssid := some "Net", wifi_pass := some "pw123456"
              device_id := some "dev1", prov_token := some "tok1"
              bearer_token := none, provisioned := some 1 }
      ∧ status_handler
          ((provision_handler envAllOk reqFullNoAuth provStateActive).2)
          = { status := "disconnected", ip := none }
      ∧ status_handler (ip_event_handler (.staGotIp "10.0.0.7")
          ((provision_handler envAllOk reqFullNoAuth provStateActive).2))
          = { status := "connected", ip := some "10.0.0.7" }) :=
  ⟨rfl, rfl, rfl,
   provision_success_no_auth envAllOk provStateActive
     "Net" "pw123456" "dev1" "tok1" "10.0.0.7" rfl rfl rfl rfl rfl⟩

/-! ### Reachability of the provisioning-module state (C6) -/

/-- The operations that can mutate the provisioning module's state:
the public API, the three HTTP handlers, and a delivered network
event. -/
inductive ProvOp
  | opStart (env : Env)
  | opStop
  | opClear (env : Env)
  | opScan (env : Env)
  | opScanReq (env : Env) (force : Bool)
  | opProvisionReq (env : Env) (req : ProvisionRequest)
  | opStatusReq
  | opNetEvent (env : Env) (e : NetEvent)

/-- The state after one operation. -/
def ProvOp.apply : ProvOp → ProvState → ProvState
  | .opStart env, s => (wifi_provisioning_start env s).2
  | .opStop, s => (wifi_provisioning_stop s).2
  | .opClear env, s => (wifi_provisioning_clear_and_restart env s).2
  | .opScan env, s => (perform_wifi_scan_and_cache env s).2
  | .opScanReq env force, s => (scan_handler env force s).2
  | .opProvisionReq env req, s => (provision_handler env req s).2
  | .opStatusReq, s => s
  | .opNetEvent env e, s => net_event_step env e s

/-- Module states reachable from a boot state (empty cache, arbitrary
pre-existing NVS content) by any interleaving of operations. -/
inductive ReachableProv : ProvState → Prop
  | boot (nvs : NvsStore) : ReachableProv (ProvState.boot nvs)
  | step (op : ProvOp) {s : ProvState} (h : ReachableProv s) :
      ReachableProv (op.apply s)

/-- The scan-cache capacity invariant. -/
def cache_bounded (s : ProvState) : Prop :=
  s.cached_networks.length ≤ WIFI_SCAN_MAX_APS

theorem cache_bounded_perform (env : Env) (s : ProvState)
    (h : cache_bounded s) :
    cache_bounded ((perform_wifi_scan_and_cache env s).2) := by
  unfold perform_wifi_scan_and_cache
  split
  · exact h
  · split
    · exact h
    · split
      · exact le_trans (List.length_take_le _ _) (min_le_right _ _)
      · exact h

theorem cache_bounded_stop (s : ProvState) (h : cache_bounded s) :
    cache_bounded ((wifi_provisioning_stop s).2) := by
  unfold wifi_provisioning_stop
  split
  · exact h
  · simp [cache_bounded, WIFI_SCAN_MAX_APS]

theorem cache_bounded_start (env : Env) (s : ProvState)
    (h : cache_bounded s) :
    cache_bounded ((wifi_provisioning_start env s).2) := by
  unfold wifi_provisioning_start
  split
  · exact h
  · split
    · exact h
    · split
      · exact h
      · split
        · exact cache_bounded_perform env s h
        · exact cache_bounded_perform env s h

theorem cache_bounded_clear (env : Env) (s : ProvState) :
    cache_bounded ((wifi_provisioning_clear_and_restart env s).2) := by
  unfold wifi_provisioning_clear_and_restart
  split
  · exact cache_bounded_start env _ (by
      simp [cache_bounded, WIFI_SCAN_MAX_APS])
  · exact cache_bounded_start env _ (by
      simp [cache_bounded, WIFI_SCAN_MAX_APS])

theorem cache_bounded_scan_read (env : Env) (force : Bool)
    (s : ProvState) (h : cache_bounded s) :
    cache_bounded ((scan_read env force s).2) := by
  unfold scan_read
  split <;> exact h

theorem cache_bounded_scan_req (env : Env) (force : Bool) (s : ProvState)
    (h : cache_bounded s) :
    cache_bounded ((scan_handler env force s).2) := by
  unfold scan_handler
  split
  · dsimp only
    split
    · exact cache_bounded_perform env s h
    · exact cache_bounded_scan_read env force _
        (cache_bounded_perform env s h)
  · exact cache_bounded_scan_read env force s h

theorem cache_bounded_provision (env : Env) (req : ProvisionRequest)
    (s : ProvState) (h : cache_bounded s) :
    cache_bounded ((provision_handler env req s).2) := by
  unfold provision_handler
  split
  · exact h
  · exact h
  · dsimp only
    split
    · exact h
    · split
      · exact h
      · exact cache_bounded_stop _ h

theorem cache_bounded_event (env : Env) (e : NetEvent) (s : ProvState)
    (h : cache_bounded s) :
    cache_bounded (net_event_step env e s) := by
  unfold net_event_step ip_event_handler wifi_event_handler
  cases e <;> simp only
  case staDisconnected reason =>
    split
    · exact cache_bounded_clear env _
    · exact h
  all_goals exact h

/-- C6: every reachable provisioning-module state keeps at most
`WIFI_SCAN_MAX_APS = 20` cached entries, and any further refresh — even
one whose underlying scan reports more access points — preserves the
bound. -/
theorem cache_count_bounded (s : ProvState) (h : ReachableProv s) :
    cache_bounded s
    ∧ ∀ env : Env,
        cache_bounded ((perform_wifi_scan_and_cache env s).2) := by
  have hb : cache_bounded s := by
    induction h with
    | boot nvs => simp [cache_bounded, ProvState.boot, WIFI_SCAN_MAX_APS]
    | step op h ih =>
        cases op with
        | opStart env => exact cache_bounded_start env _ ih
        | opStop => exact cache_bounded_stop _ ih
        | opClear env => exact cache_bounded_clear env _
        | opScan env => exact cache_bounded_perform env _ ih
        | opScanReq env force => exact cache_bounded_scan_req env force _ ih
        | opProvisionReq env req =>
            exact cache_bounded_provision env req _ ih
        | opStatusReq => exact ih
        | opNetEvent env e => exact cache_bounded_event env e _ ih
  exact ⟨hb, fun env => cache_bounded_perform env s hb⟩

/-- An environment whose scan reports 25 access points. -/
def envManyAps : Env :=
  { envAllOk with
      scanAps := List.replicate 25
        { ssid := "AP", rssi := -50, channel := 1, secure := false } }

/-- C6 witness: the state reached by one refresh that reports 25 access
points is cache-bounded, and so is any refresh from it. -/
theorem cache_count_bounded_witness :
    ReachableProv ((ProvOp.opScan envManyAps).apply
        (ProvState.boot NvsStore.empty))
    ∧ (cache_bounded ((ProvOp.opScan envManyAps).apply
          (ProvState.boot NvsStore.empty))
      ∧ ∀ env : Env,
          cache_bounded ((perform_wifi_scan_and_cache env
            ((ProvOp.opScan envManyAps).apply
              (ProvState.boot NvsStore.empty))).2)) :=
  ⟨ReachableProv.step (.opScan envManyAps) (ReachableProv.boot NvsStore.empty),
   cache_count_bounded _
     (ReachableProv.step (.opScan envManyAps)
       (ReachableProv.boot NvsStore.empty))⟩

end StatsClient
